import Mathlib

/- Shallow embedding of the COWC dataset loader (torchgeo/datasets/cowc.py) and
   of the western_usa_live_fuel_moisture test-fixture generator
   (tests/data/western_usa_live_fuel_moisture/data.py).

   Python strings become Lean String, the local filesystem becomes an
   association list from joined paths to file contents, and the external
   effects the loader calls into (MD5 hashing, HTTP fetch, tar extraction,
   bz2 decompression, PIL image decoding) become explicit function
   parameters.  The CPython built-ins the loader relies on (list indexing,
   int(), str.format, line splitting of a text file read by csv.reader with
   a one-character delimiter and no quoting in the data) are embedded for
   the value shapes this code produces. -/

set_option autoImplicit false

namespace TG

/-- Python exceptions that the modelled code can raise. -/
inductive PyErr where
  | assertionError
  | runtimeError (msg : String)
  | keyError (key : String)
  | indexError
  | valueError
  | fileNotFoundError
  deriving DecidableEq, Repr

/-- Observable effects performed by the loader: `downloadUrlCall` is an
invocation of torchvision's download_url, `fetch` an actual network
retrieval inside it, `extractTar` a tarfile extractall, `decompress` a bz2
decompression, `integrityCheck` a call to _check_integrity, `openFile` a
successful open of the split file. -/
inductive Action where
  | downloadUrlCall (url : String)
  | fetch (url : String)
  | extractTar (filename : String)
  | decompress (filename target : String)
  | integrityCheck
  | openFile (path : String)
  deriving DecidableEq, Repr

/-- The local filesystem: association list from path to file content,
most recent write first. -/
abbrev FS := List (String × String)

/-- Read a file: first entry whose key matches the path. -/
def fsGet : FS → String → Option String
  | [], _ => none
  | (k, v) :: rest, p => if k = p then some v else fsGet rest p

/-- Write (or overwrite) a file by prepending the new binding. -/
def fsWrite (fs : FS) (p c : String) : FS := (p, c) :: fs

/-- Write a batch of files (tar extractall output). -/
def fsWriteAll (fs : FS) (entries : FS) : FS :=
  entries.foldl (fun acc e => fsWrite acc e.1 e.2) fs

/-- os.path.join for a non-empty head and a relative tail. -/
def pathJoin (a b : String) : String := a ++ "/" ++ b

/-- Python str.endswith, stated over the character list so that concrete
instances compute. -/
def strEndsWith (s suf : String) : Bool := suf.data.isSuffixOf s.data

/-- Split a character list on a separator; consecutive separators yield
empty groups, like Python str.split with an explicit separator. -/
def splitOnChar (sep : Char) : List Char → List (List Char)
  | [] => [[]]
  | c :: cs =>
    if c = sep then [] :: splitOnChar sep cs
    else
      match splitOnChar sep cs with
      | [] => [[c]]
      | g :: gs => (c :: g) :: gs

/-- Split a string on a one-character separator. -/
def strSplitOn (s : String) (sep : Char) : List String :=
  (splitOnChar sep s.data).map String.mk

/-- The characters Python str.strip removes. -/
def isPySpace (c : Char) : Bool :=
  c = ' ' || c = '\t' || c = '\n' || c = '\r' || c = '\x0b' || c = '\x0c'

/-- Python str.strip(): drop whitespace from both ends. -/
def pyStrip (cs : List Char) : List Char :=
  ((cs.dropWhile isPySpace).reverse.dropWhile isPySpace).reverse

/-- Python list indexing `xs[i]`: negative indices count from the end,
out-of-range raises IndexError. -/
def pyGet {α : Type} (xs : List α) (i : Int) : Except PyErr α :=
  let j : Int := if i < 0 then i + xs.length else i
  if 0 ≤ j then
    match xs[j.toNat]? with
    | some a => Except.ok a
    | none => Except.error PyErr.indexError
  else Except.error PyErr.indexError

/-- Accumulate the value of a run of ASCII digits; none on a non-digit. -/
def digitsVal : List Char → Nat → Option Nat
  | [], acc => some acc
  | c :: cs, acc =>
    if c.isDigit then digitsVal cs (acc * 10 + (c.toNat - 48)) else none

/-- Python int(str) on the decimal strings the loader can meet: strip
whitespace, optional sign, then digits; anything else raises ValueError. -/
def pyInt (s : String) : Except PyErr Int :=
  match pyStrip s.data with
  | [] => Except.error PyErr.valueError
  | c :: cs =>
    if c = '-' then
      match cs, digitsVal cs 0 with
      | _ :: _, some n => Except.ok (-(n : Int))
      | _, _ => Except.error PyErr.valueError
    else if c = '+' then
      match cs, digitsVal cs 0 with
      | _ :: _, some n => Except.ok ((n : Int))
      | _, _ => Except.error PyErr.valueError
    else
      match digitsVal (c :: cs) 0 with
      | some n => Except.ok ((n : Int))
      | none => Except.error PyErr.valueError

/-- The character that opens a replacement field in str.format. -/
def lbrace : Char := Char.ofNat 123

/-- The character that closes a replacement field in str.format. -/
def rbrace : Char := Char.ofNat 125

/-- Scanner state for str.format: in literal text, or inside a field whose
name is accumulated in reverse. -/
inductive FmtMode where
  | text
  | field (accRev : List Char)

/-- Core of Python str.format called with a single positional argument:
an empty field consumes the one positional argument (auto-numbering, a
second empty field raises IndexError), field `0` takes it by position, any
named field raises KeyError with that name, and stray braces raise
ValueError. -/
def pyFormatAux (arg : List Char) : List Char → FmtMode → Nat → Except PyErr (List Char)
  | [], FmtMode.text, _ => Except.ok []
  | [], FmtMode.field _, _ => Except.error PyErr.valueError
  | c :: rest, FmtMode.text, auto =>
    if c = lbrace then pyFormatAux arg rest (FmtMode.field []) auto
    else if c = rbrace then Except.error PyErr.valueError
    else (pyFormatAux arg rest FmtMode.text auto).map (fun r => c :: r)
  | c :: rest, FmtMode.field accRev, auto =>
    if c = rbrace then
      if accRev = [] then
        if auto = 0 then
          (pyFormatAux arg rest FmtMode.text 1).map (fun r => arg ++ r)
        else Except.error PyErr.indexError
      else if accRev = ['0'] then
        (pyFormatAux arg rest FmtMode.text auto).map (fun r => arg ++ r)
      else Except.error (PyErr.keyError (String.mk accRev.reverse))
    else pyFormatAux arg rest (FmtMode.field (c :: accRev)) auto

/-- Python template.format(arg) with one positional argument. -/
def pyFormat (template arg : String) : Except PyErr String :=
  (pyFormatAux arg.data template.data FmtMode.text 0).map String.mk

/-- The lines an opened text file yields to csv.reader: split on newline,
a trailing newline does not produce an extra empty line. -/
def csvLines (s : String) : List String :=
  if s = "" then []
  else
    let ls := strSplitOn s '\n'
    if strEndsWith s "\n" then ls.dropLast else ls

/-- One csv.reader row with delimiter a single space and no quoting in the
data: an empty line gives the empty row, otherwise split on the
delimiter. -/
def csvRow (l : String) : List String :=
  if l = "" then [] else strSplitOn l ' ' 

/-- All rows csv.reader yields for a split-file content. -/
def csvRows (s : String) : List (List String) := (csvLines s).map csvRow

/-- The __init__ loop `for row in reader: images.append(row[0]);
targets.append(row[1])`: collects both columns, raising IndexError on a
row with fewer than two fields. -/
def readRows : List (List String) → Except PyErr (List String × List String)
  | [] => Except.ok ([], [])
  | row :: rest => do
    let img ← match row[0]? with
      | some x => Except.ok x
      | none => Except.error PyErr.indexError
    let tgt ← match row[1]? with
      | some x => Except.ok x
      | none => Except.error PyErr.indexError
    let (is, ts) ← readRows rest
    Except.ok (img :: is, tgt :: ts)

/-- torchvision.datasets.utils.check_integrity with an md5 argument: false
when the file does not exist, otherwise compare the hash of its content
with the expected value.  `md5fn` is the external MD5 function. -/
def check_integrity (fs : FS) (md5fn : String → String) (fpath md5 : String) : Bool :=
  match fsGet fs fpath with
  | none => false
  | some content => md5fn content = md5

/-- torchvision.datasets.utils.download_url(url, root, filename, md5): skip
when the local file already verifies, otherwise retrieve the remote
content into root/filename and verify again, raising RuntimeError on a
mismatch.  `remote` maps a url to the content a retrieval would store. -/
def download_url (fs : FS) (md5fn remote : String → String)
    (url root filename md5 : String) : List Action × Except PyErr FS :=
  let fpath := pathJoin root filename
  if check_integrity fs md5fn fpath md5 then
    ([Action.downloadUrlCall url], Except.ok fs)
  else
    let fs2 := fsWrite fs fpath (remote url)
    if check_integrity fs2 md5fn fpath md5 then
      ([Action.downloadUrlCall url, Action.fetch url], Except.ok fs2)
    else
      ([Action.downloadUrlCall url, Action.fetch url],
       Except.error (PyErr.runtimeError "File not found or corrupted."))

/-- The suffix dispatch in _COWC.download after each download_url call:
`.tbz` files are passed to tarfile extractall into the dataset directory,
`.bz2` files are decompressed to filepath[:-4], anything else is left
alone.  `tarExtract` maps an archive content to the extracted entries and
`bunzip` maps a compressed content to the decompressed bytes. -/
def extractDispatch (tarExtract : String → FS) (bunzip : String → String)
    (dir f : String) (fs : FS) : List Action × Except PyErr FS :=
  if strEndsWith f ".tbz" then
    match fsGet fs (pathJoin dir f) with
    | some c => ([Action.extractTar f], Except.ok (fsWriteAll fs (tarExtract c)))
    | none => ([], Except.error PyErr.fileNotFoundError)
  else if strEndsWith f ".bz2" then
    match fsGet fs (pathJoin dir f) with
    | some c =>
      ([Action.decompress f (String.dropRight (pathJoin dir f) 4)],
       Except.ok (fsWrite fs (String.dropRight (pathJoin dir f) 4) (bunzip c)))
    | none => ([], Except.error PyErr.fileNotFoundError)
  else ([], Except.ok fs)

/-- Per-dataset compile-time constants declared by the _COWC subclasses. -/
structure COWCConfig where
  base_folder : String
  base_url : String
  filenames : List String
  md5s : List String
  filename : String
  deriving DecidableEq, Repr

/-- _COWC._check_integrity: every (filename, md5) pair of the descriptor
verifies under check_integrity, with an early false on the first failure. -/
def cowcCheckIntegrity (cfg : COWCConfig) (root : String)
    (md5fn : String → String) (fs : FS) : Bool :=
  (cfg.filenames.zip cfg.md5s).all fun p =>
    check_integrity fs md5fn (pathJoin (pathJoin root cfg.base_folder) p.1) p.2

/-- The body of the download loop of _COWC.download: for each (filename,
md5) pair call download_url against base_url + filename and then run the
suffix dispatch. -/
def downloadLoop (cfg : COWCConfig) (root : String) (md5fn remote : String → String)
    (tarExtract : String → FS) (bunzip : String → String) :
    List (String × String) → FS → List Action × Except PyErr FS
  | [], fs => ([], Except.ok fs)
  | (f, m) :: rest, fs =>
    match download_url fs md5fn remote (cfg.base_url ++ f)
        (pathJoin root cfg.base_folder) f m with
    | (a1, Except.error e) => (a1, Except.error e)
    | (a1, Except.ok fs1) =>
      match extractDispatch tarExtract bunzip (pathJoin root cfg.base_folder) f fs1 with
      | (a2, Except.error e) => (a1 ++ a2, Except.error e)
      | (a2, Except.ok fs2) =>
        let (a3, r) := downloadLoop cfg root md5fn remote tarExtract bunzip rest fs2
        (a1 ++ a2 ++ a3, r)

/-- _COWC.download: an early return when the whole dataset already
verifies, otherwise the download loop over zip(filenames, md5s). -/
def cowcDownload (cfg : COWCConfig) (root : String) (md5fn remote : String → String)
    (tarExtract : String → FS) (bunzip : String → String) (fs : FS) :
    List Action × Except PyErr FS :=
  if cowcCheckIntegrity cfg root md5fn fs then
    ([Action.integrityCheck], Except.ok fs)
  else
    let (a, r) := downloadLoop cfg root md5fn remote tarExtract bunzip
      (cfg.filenames.zip cfg.md5s) fs
    (Action.integrityCheck :: a, r)

/-- The per-instance state a successful _COWC.__init__ builds: the images
and targets columns of the split file, both still strings. -/
structure COWCDataset where
  images : List String
  targets : List String
  deriving DecidableEq, Repr

/-- len(dataset) = len(self.targets). -/
def cowcLen (ds : COWCDataset) : Nat := ds.targets.length

/-- The part of _COWC.__init__ after the optional download: integrity
check (RuntimeError on failure), split-filename formatting, opening the
split file and running the reader loop. -/
def cowcInitAfter (cfg : COWCConfig) (root split : String)
    (md5fn : String → String) (a1 : List Action) (fs1 : FS) :
    List Action × Except PyErr (FS × COWCDataset) :=
  if cowcCheckIntegrity cfg root md5fn fs1 then
    match pyFormat cfg.filename split with
    | Except.error e => (a1 ++ [Action.integrityCheck], Except.error e)
    | Except.ok fname =>
      match fsGet fs1 (pathJoin (pathJoin root cfg.base_folder) fname) with
      | none => (a1 ++ [Action.integrityCheck], Except.error PyErr.fileNotFoundError)
      | some content =>
        match readRows (csvRows content) with
        | Except.error e =>
          (a1 ++ [Action.integrityCheck,
                  Action.openFile (pathJoin (pathJoin root cfg.base_folder) fname)],
           Except.error e)
        | Except.ok (imgs, tgts) =>
          (a1 ++ [Action.integrityCheck,
                  Action.openFile (pathJoin (pathJoin root cfg.base_folder) fname)],
           Except.ok (fs1, { images := imgs, targets := tgts }))
  else
    (a1 ++ [Action.integrityCheck],
     Except.error (PyErr.runtimeError
       "Dataset not found or corrupted. You can use download=True to download it"))

/-- _COWC.__init__ with transforms left at None: assert the split, run the
optional download, then the post-download phase.  Returns the actions
performed and either the raised exception or the final filesystem and the
constructed dataset. -/
def cowcInit (cfg : COWCConfig) (root split : String) (download : Bool)
    (md5fn remote : String → String) (tarExtract : String → FS)
    (bunzip : String → String) (fs : FS) :
    List Action × Except PyErr (FS × COWCDataset) :=
  if split = "train" ∨ split = "test" then
    match (if download then cowcDownload cfg root md5fn remote tarExtract bunzip fs
           else ([], Except.ok fs)) with
    | (a1, Except.error e) => (a1, Except.error e)
    | (a1, Except.ok fs1) => cowcInitAfter cfg root split md5fn a1 fs1
  else ([], Except.error PyErr.assertionError)

/-- _COWC._load_image: self.images[index], then Image.open on the joined
path (FileNotFoundError when absent) and convert to RGB via the external
decoder. -/
def cowcLoadImage (fs : FS) (decodeRGB : String → String) (cfg : COWCConfig)
    (root : String) (ds : COWCDataset) (index : Int) : Except PyErr String := do
  let rel ← pyGet ds.images index
  match fsGet fs (pathJoin (pathJoin root cfg.base_folder) rel) with
  | some c => Except.ok (decodeRGB c)
  | none => Except.error PyErr.fileNotFoundError

/-- _COWC.__getitem__ with transforms = None: load the image, then
int(self.targets[index]), and return the pair. -/
def cowcGetitem (fs : FS) (decodeRGB : String → String) (cfg : COWCConfig)
    (root : String) (ds : COWCDataset) (index : Int) :
    Except PyErr (String × Int) := do
  let image ← cowcLoadImage fs decodeRGB cfg root ds index
  let tstr ← pyGet ds.targets index
  let target ← pyInt tstr
  Except.ok (image, target)

/-- The COWCDetection class constants. -/
def cowcDetectionCfg : COWCConfig :=
  { base_folder := "cowc_detection"
    base_url :=
      "https://gdo152.llnl.gov/cowc/download/cowc/datasets/patch_sets/detection/"
    filenames :=
      [ "COWC_train_list_detection.txt.bz2"
      , "COWC_test_list_detection.txt.bz2"
      , "COWC_Detection_Toronto_ISPRS.tbz"
      , "COWC_Detection_Selwyn_LINZ.tbz"
      , "COWC_Detection_Potsdam_ISPRS.tbz"
      , "COWC_Detection_Vaihingen_ISPRS.tbz"
      , "COWC_Detection_Columbus_CSUAV_AFRL.tbz"
      , "COWC_Detection_Utah_AGRC.tbz" ]
    md5s :=
      [ "c954a5a3dac08c220b10cfbeec83893c"
      , "c6c2d0a78f12a2ad88b286b724a57c1a"
      , "11af24f43b198b0f13c8e94814008a48"
      , "22fd37a86961010f5d519a7da0e1fc72"
      , "bf053545cc1915d8b6597415b746fe48"
      , "23945d5b22455450a938382ccc2a8b27"
      , "f40522dc97bea41b10117d4a5b946a6f"
      , "195da7c9443a939a468c9f232fd86ee3" ]
    filename := "COWC_\x7bsplit\x7d_list_detection.txt" }

/-- The COWCCounting class constants. -/
def cowcCountingCfg : COWCConfig :=
  { base_folder := "cowc_counting"
    base_url :=
      "https://gdo152.llnl.gov/cowc/download/cowc/datasets/patch_sets/counting/"
    filenames :=
      [ "COWC_train_list_64_class.txt.bz2"
      , "COWC_test_list_64_class.txt.bz2"
      , "COWC_Counting_Toronto_ISPRS.tbz"
      , "COWC_Counting_Selwyn_LINZ.tbz"
      , "COWC_Counting_Potsdam_ISPRS.tbz"
      , "COWC_Counting_Vaihingen_ISPRS.tbz"
      , "COWC_Counting_Columbus_CSUAV_AFRL.tbz"
      , "COWC_Counting_Utah_AGRC.tbz" ]
    md5s :=
      [ "187543d20fa6d591b8da51136e8ef8fb"
      , "930cfd6e160a7b36db03146282178807"
      , "bc2613196dfa93e66d324ae43e7c1fdb"
      , "ea842ae055f5c74d0d933d2194764545"
      , "19a77ab9932b722ef52b197d70e68ce7"
      , "4009c1e420566390746f5b4db02afdb9"
      , "daf8033c4e8ceebbf2c3cac3fabb8b10"
      , "777ec107ed2a3d54597a739ce74f95ad" ]
    filename := "COWC_\x7bsplit\x7d_list_64_class.txt" }

/-- A Python value serializable by json.dump as the fixture script uses it.
A number keeps the decimal text repr(float) produces for it, which for the
fixture's literals is the literal itself. -/
inductive PyJson where
  | str (s : String)
  | num (lit : String)
  | arr (elems : List PyJson)
  | obj (entries : List (String × PyJson))

/-- JSON string quoting for the fixture's plain ASCII strings, which
contain no character json.dump would escape. -/
def jsonQuote (s : String) : String := "\"" ++ s ++ "\""

mutual

/-- json.dump with its default separators: items joined by comma-space,
keys and values joined by colon-space, dict keys in insertion order. -/
def pyJsonDump : PyJson → String
  | PyJson.str s => jsonQuote s
  | PyJson.num lit => lit
  | PyJson.arr es => "[" ++ pyJsonDumpList es ++ "]"
  | PyJson.obj kvs => "\x7b" ++ pyJsonDumpObj kvs ++ "\x7d"

/-- Serialize array elements, comma-space separated. -/
def pyJsonDumpList : List PyJson → String
  | [] => ""
  | [x] => pyJsonDump x
  | x :: y :: rest => pyJsonDump x ++ ", " ++ pyJsonDumpList (y :: rest)

/-- Serialize object entries, comma-space separated. -/
def pyJsonDumpObj : List (String × PyJson) → String
  | [] => ""
  | [(k, v)] => jsonQuote k ++ ": " ++ pyJsonDump v
  | (k, v) :: e :: rest =>
    jsonQuote k ++ ": " ++ pyJsonDump v ++ ", " ++ pyJsonDumpObj (e :: rest)

end

/-- Object entry holding a number. -/
def jnum (k lit : String) : String × PyJson := (k, PyJson.num lit)

/-- Object entry holding a string. -/
def jstr (k s : String) : String × PyJson := (k, PyJson.str s)

/-- The LABELS constant of the fixture script. -/
def LABELS : PyJson :=
  PyJson.obj
    [ jstr "type" "Feature"
    , ("properties", PyJson.obj
        [ jnum "percent(t)" "132.6666667"
        , jstr "site" "Blackstone"
        , jstr "date" "6/30/15"
        , jnum "slope(t)" "0.599961042"
        , jnum "elevation(t)" "1522.0"
        , jnum "canopy_height(t)" "0.0"
        , jnum "forest_cover(t)" "130.0"
        , jnum "silt(t)" "36.0"
        , jnum "sand(t)" "38.0"
        , jnum "clay(t)" "26.0"
        , jnum "vv(t)" "-12.80108143"
        , jnum "vh(t)" "-20.86413967"
        , jnum "red(t)" "2007.5"
        , jnum "green(t)" "1669.5"
        , jnum "blue(t)" "1234.5"
        , jnum "swir(t)" "3226.5"
        , jnum "nir(t)" "2764.5"
        , jnum "ndvi(t)" "0.158611467"
        , jnum "ndwi(t)" "-0.07713057"
        , jnum "nirv(t)" "438.5596345"
        , jnum "vv_red(t)" "-0.006376628"
        , jnum "vv_green(t)" "-0.007667614"
        , jnum "vv_blue(t)" "-0.010369446"
        , jnum "vv_swir(t)" "-0.003967482"
        , jnum "vv_nir(t)" "-0.004630523"
        , jnum "vv_ndvi(t)" "-80.70716267"
        , jnum "vv_ndwi(t)" "165.9663796"
        , jnum "vv_nirv(t)" "-0.029188919"
        , jnum "vh_red(t)" "-0.010393096"
        , jnum "vh_green(t)" "-0.012497238"
        , jnum "vh_blue(t)" "-0.016900883"
        , jnum "vh_swir(t)" "-0.006466493"
        , jnum "vh_nir(t)" "-0.007547166"
        , jnum "vh_ndvi(t)" "-131.5424422"
        , jnum "vh_ndwi(t)" "270.5041557"
        , jnum "vh_nirv(t)" "-0.047574236"
        , jnum "vh_vv(t)" "-8.063058239"
        , jnum "slope(t-1)" "0.599961042"
        , jnum "elevation(t-1)" "1522.0"
        , jnum "canopy_height(t-1)" "0.0"
        , jnum "forest_cover(t-1)" "130.0"
        , jnum "silt(t-1)" "36.0"
        , jnum "sand(t-1)" "38.0"
        , jnum "clay(t-1)" "26.0"
        , jnum "vv(t-1)" "-12.93716855"
        , jnum "vh(t-1)" "-20.92368901"
        , jnum "red(t-1)" "1792.0"
        , jnum "green(t-1)" "1490.0"
        , jnum "blue(t-1)" "1102.5"
        , jnum "swir(t-1)" "3047.0"
        , jnum "nir(t-1)" "2574.0"
        , jnum "ndvi(t-1)" "0.179116009"
        , jnum "ndwi(t-1)" "-0.084146807"
        , jnum "nirv(t-1)" "461.0691997"
        , jnum "vv_red(t-1)" "-0.007219402"
        , jnum "vv_green(t-1)" "-0.008682663"
        , jnum "vv_blue(t-1)" "-0.011734393"
        , jnum "vv_swir(t-1)" "-0.004245871"
        , jnum "vv_nir(t-1)" "-0.005026095"
        , jnum "vv_ndvi(t-1)" "-72.22787422"
        , jnum "vv_ndwi(t-1)" "153.7452097"
        , jnum "vv_nirv(t-1)" "-0.02805906"
        , jnum "vh_red(t-1)" "-0.011676166"
        , jnum "vh_green(t-1)" "-0.014042744"
        , jnum "vh_blue(t-1)" "-0.018978403"
        , jnum "vh_swir(t-1)" "-0.00686698"
        , jnum "vh_nir(t-1)" "-0.008128861"
        , jnum "vh_ndvi(t-1)" "-116.8164094"
        , jnum "vh_ndwi(t-1)" "248.6569562"
        , jnum "vh_nirv(t-1)" "-0.0453808"
        , jnum "vh_vv(t-1)" "-7.986520458"
        , jnum "slope(t-2)" "0.599961042"
        , jnum "elevation(t-2)" "1522.0"
        , jnum "canopy_height(t-2)" "0.0"
        , jnum "forest_cover(t-2)" "130.0"
        , jnum "silt(t-2)" "36.0"
        , jnum "sand(t-2)" "38.0"
        , jnum "clay(t-2)" "26.0"
        , jnum "vv(t-2)" "-13.07325567"
        , jnum "vh(t-2)" "-20.98323835"
        , jnum "red(t-2)" "1721.5"
        , jnum "green(t-2)" "1432.0"
        , jnum "blue(t-2)" "1056.5"
        , jnum "swir(t-2)" "2950.0"
        , jnum "nir(t-2)" "2476.0"
        , jnum "ndvi(t-2)" "0.179768568"
        , jnum "ndwi(t-2)" "-0.087357002"
        , jnum "nirv(t-2)" "445.0984812"
        , jnum "vv_red(t-2)" "-0.007594107"
        , jnum "vv_green(t-2)" "-0.009129368"
        , jnum "vv_blue(t-2)" "-0.012374118"
        , jnum "vv_swir(t-2)" "-0.004431612"
        , jnum "vv_nir(t-2)" "-0.00527999"
        , jnum "vv_ndvi(t-2)" "-72.72270011"
        , jnum "vv_ndwi(t-2)" "149.6532084"
        , jnum "vv_nirv(t-2)" "-0.029371603"
        , jnum "vh_red(t-2)" "-0.012188927"
        , jnum "vh_green(t-2)" "-0.014653099"
        , jnum "vh_blue(t-2)" "-0.019861087"
        , jnum "vh_swir(t-2)" "-0.007112962"
        , jnum "vh_nir(t-2)" "-0.008474652"
        , jnum "vh_ndvi(t-2)" "-116.7236217"
        , jnum "vh_ndwi(t-2)" "240.2009889"
        , jnum "vh_nirv(t-2)" "-0.047142912"
        , jnum "vh_vv(t-2)" "-7.909982677"
        , jnum "slope(t-3)" "0.599961042"
        , jnum "elevation(t-3)" "1522.0"
        , jnum "canopy_height(t-3)" "0.0"
        , jnum "forest_cover(t-3)" "130.0"
        , jnum "silt(t-3)" "36.0"
        , jnum "sand(t-3)" "38.0"
        , jnum "clay(t-3)" "26.0"
        , jnum "vv(t-3)" "-12.35794964"
        , jnum "vh(t-3)" "-20.25746909"
        , jnum "red(t-3)" "1367.333333"
        , jnum "green(t-3)" "1151.0"
        , jnum "blue(t-3)" "827.3333333"
        , jnum "swir(t-3)" "2349.333333"
        , jnum "nir(t-3)" "2051.0"
        , jnum "ndvi(t-3)" "0.216978329"
        , jnum "ndwi(t-3)" "-0.050717071"
        , jnum "nirv(t-3)" "413.3885932"
        , jnum "vv_red(t-3)" "-0.009037993"
        , jnum "vv_green(t-3)" "-0.010736707"
        , jnum "vv_blue(t-3)" "-0.014937087"
        , jnum "vv_swir(t-3)" "-0.005260194"
        , jnum "vv_nir(t-3)" "-0.006025329"
        , jnum "vv_ndvi(t-3)" "-56.95476465"
        , jnum "vv_ndwi(t-3)" "243.6644995"
        , jnum "vv_nirv(t-3)" "-0.029894269"
        , jnum "vh_red(t-3)" "-0.014815311"
        , jnum "vh_green(t-3)" "-0.017599886"
        , jnum "vh_blue(t-3)" "-0.024485257"
        , jnum "vh_swir(t-3)" "-0.008622646"
        , jnum "vh_nir(t-3)" "-0.009876874"
        , jnum "vh_ndvi(t-3)" "-93.36171601"
        , jnum "vh_ndwi(t-3)" "399.4211186"
        , jnum "vh_nirv(t-3)" "-0.049003454"
        , jnum "vh_vv(t-3)" "-7.899519455" ])
    , ("geometry", PyJson.obj
        [ jstr "type" "Point"
        , ("coordinates", PyJson.arr
            [PyJson.num "-115.8855556", PyJson.num "42.44111111"]) ]) ]

/-- The STAC constant of the fixture script. -/
def STAC : PyJson :=
  PyJson.obj
    [ ("assets", PyJson.obj
        [ ("documentation", PyJson.obj
            [ jstr "href" "../_common/documentation.pdf"
            , jstr "type" "application/pdf" ])
        , ("labels", PyJson.obj
            [ jstr "href" "labels.geojson"
            , jstr "type" "application/geo+json" ])
        , ("training_features_descriptions", PyJson.obj
            [ jstr "href" "../_common/training_features_descriptions.csv"
            , jstr "title" "Training Features Descriptions"
            , jstr "type" "text/csv" ]) ])
    , ("bbox", PyJson.arr
        [ PyJson.num "-115.8855556", PyJson.num "42.44111111"
        , PyJson.num "-115.8855556", PyJson.num "42.44111111" ])
    , jstr "collection" "su_sar_moisture_content"
    , ("geometry", PyJson.obj
        [ ("coordinates", PyJson.arr
            [PyJson.num "-115.8855556", PyJson.num "42.44111111"])
        , jstr "type" "Point" ])
    , jstr "id" "su_sar_moisture_content_0001"
    , ("links", PyJson.arr
        [ PyJson.obj [jstr "href" "../collection.json", jstr "rel" "collection"]
        , PyJson.obj [jstr "href" "../collection.json", jstr "rel" "parent"] ])
    , ("properties", PyJson.obj
        [ jstr "datetime" "2015-06-30T00:00:00Z"
        , jstr "label:description" ""
        , ("label:properties", PyJson.arr [PyJson.str "percent(t)"])
        , jstr "label:type" "vector" ])
    , ("stac_extensions", PyJson.arr [PyJson.str "label"])
    , jstr "stac_version" "1.0.0-beta.2"
    , jstr "type" "Feature" ]

/-- create_file(path) of the fixture script: json.dump LABELS to
path/labels.geojson, then json.dump STAC to path/stac.json. -/
def create_file (path : String) (fs : FS) : FS :=
  fsWrite (fsWrite fs (pathJoin path "labels.geojson") (pyJsonDump LABELS))
    (pathJoin path "stac.json") (pyJsonDump STAC)

/-- Bind on an ok value steps to the continuation. -/
theorem ok_bind {ε α β : Type} (a : α) (f : α → Except ε β) :
    (Except.ok a >>= f : Except ε β) = f a := rfl

/-- Bind on an error short-circuits. -/
theorem error_bind {ε α β : Type} (e : ε) (f : α → Except ε β) :
    ((Except.error e : Except ε α) >>= f) = Except.error e := rfl

theorem readRows_length {rows : List (List String)} {is ts : List String}
    (h : readRows rows = Except.ok (is, ts)) :
    is.length = rows.length ∧ ts.length = rows.length := by
  induction rows generalizing is ts with
  | nil =>
    simp only [readRows, Except.ok.injEq, Prod.mk.injEq] at h
    simp [← h.1, ← h.2]
  | cons row rest ih =>
    rcases h0 : row[0]? with _ | img
    · simp [readRows, h0, error_bind] at h
    rcases h1 : row[1]? with _ | tgt
    · simp [readRows, h0, h1, ok_bind, error_bind] at h
    rcases h2 : readRows rest with e | ⟨is2, ts2⟩
    · simp [readRows, h0, h1, h2, ok_bind, error_bind] at h
    simp only [readRows, h0, h1, h2, ok_bind, Except.ok.injEq, Prod.mk.injEq] at h
    obtain ⟨h3, h4⟩ := h
    obtain ⟨hi, ht⟩ := ih h2
    simp [← h3, ← h4, hi, ht]

theorem readRows_get {rows : List (List String)} {is ts : List String}
    (h : readRows rows = Except.ok (is, ts)) (i : Nat) :
    is[i]? = (rows[i]?).bind (fun r => r[0]?) ∧
    ts[i]? = (rows[i]?).bind (fun r => r[1]?) := by
  induction rows generalizing is ts i with
  | nil =>
    simp only [readRows, Except.ok.injEq, Prod.mk.injEq] at h
    simp [← h.1, ← h.2]
  | cons row rest ih =>
    rcases h0 : row[0]? with _ | img
    · simp [readRows, h0, error_bind] at h
    rcases h1 : row[1]? with _ | tgt
    · simp [readRows, h0, h1, ok_bind, error_bind] at h
    rcases h2 : readRows rest with e | ⟨is2, ts2⟩
    · simp [readRows, h0, h1, h2, ok_bind, error_bind] at h
    simp only [readRows, h0, h1, h2, ok_bind, Except.ok.injEq, Prod.mk.injEq] at h
    obtain ⟨h3, h4⟩ := h
    cases i with
    | zero => simp [← h3, ← h4, h0, h1]
    | succ j =>
      have := ih h2 j
      simp only [← h3, ← h4, List.getElem?_cons_succ]
      simpa using this

theorem readRows_short {rows : List (List String)}
    (h : ∃ r ∈ rows, r.length < 2) :
    readRows rows = Except.error PyErr.indexError := by
  induction rows with
  | nil => simp at h
  | cons row rest ih =>
    rcases h with ⟨r, hr, hlen⟩
    rcases List.mem_cons.1 hr with rfl | hmem
    · rcases h0 : r[0]? with _ | img
      · simp [readRows, h0, error_bind]
      · have h1 : r[1]? = none := by
          rw [List.getElem?_eq_none_iff]
          omega
        simp [readRows, h0, h1, ok_bind, error_bind]
    · rcases h0 : row[0]? with _ | img
      · simp [readRows, h0, error_bind]
      · rcases h1 : row[1]? with _ | tgt
        · simp [readRows, h0, h1, ok_bind, error_bind]
        · simp [readRows, h0, h1, ih ⟨r, hmem, hlen⟩, ok_bind, error_bind]

theorem cowcInitAfter_ok_inv {cfg : COWCConfig} {root split : String}
    {md5fn : String → String} {a1 acts : List Action} {fs1 fs2 : FS}
    {ds : COWCDataset}
    (h : cowcInitAfter cfg root split md5fn a1 fs1 = (acts, Except.ok (fs2, ds))) :
    fs2 = fs1 ∧ cowcCheckIntegrity cfg root md5fn fs1 = true ∧
    ∃ fname content,
      pyFormat cfg.filename split = Except.ok fname ∧
      fsGet fs1 (pathJoin (pathJoin root cfg.base_folder) fname) = some content ∧
      readRows (csvRows content) = Except.ok (ds.images, ds.targets) := by
  unfold cowcInitAfter at h
  split at h
  case isTrue hint =>
    split at h
    case h_1 e heq => simp at h
    case h_2 fname heq =>
      split at h
      case h_1 hget => simp at h
      case h_2 content hget =>
        split at h
        case h_1 e hrows => simp at h
        case h_2 pr imgs tgts hrows =>
          simp only [Prod.mk.injEq, Except.ok.injEq] at h
          obtain ⟨-, h4, h5⟩ := h
          refine ⟨h4.symm, hint, fname, content, heq, hget, ?_⟩
          rw [hrows, ← h5]
  case isFalse hint => simp at h

theorem cowcInit_ok_inv {cfg : COWCConfig} {root split : String} {dl : Bool}
    {md5fn remote : String → String} {tarExtract : String → FS}
    {bunzip : String → String} {fs : FS} {acts : List Action} {fs2 : FS}
    {ds : COWCDataset}
    (h : cowcInit cfg root split dl md5fn remote tarExtract bunzip fs
         = (acts, Except.ok (fs2, ds))) :
    cowcCheckIntegrity cfg root md5fn fs2 = true ∧
    ∃ fname content,
      pyFormat cfg.filename split = Except.ok fname ∧
      fsGet fs2 (pathJoin (pathJoin root cfg.base_folder) fname) = some content ∧
      readRows (csvRows content) = Except.ok (ds.images, ds.targets) := by
  unfold cowcInit at h
  split at h
  case isTrue hsplit =>
    split at h
    case h_1 => simp at h
    case h_2 a1 fs1 heq =>
      obtain ⟨rfl, h2, rest⟩ := cowcInitAfter_ok_inv h
      exact ⟨h2, rest⟩
  case isFalse => simp at h

/-- A constructed dataset has columns of equal length. -/
theorem cowcInit_ok_lengths {cfg : COWCConfig} {root split : String} {dl : Bool}
    {md5fn remote : String → String} {tarExtract : String → FS}
    {bunzip : String → String} {fs : FS} {acts : List Action} {fs2 : FS}
    {ds : COWCDataset}
    (h : cowcInit cfg root split dl md5fn remote tarExtract bunzip fs
         = (acts, Except.ok (fs2, ds))) :
    ds.images.length = ds.targets.length := by
  obtain ⟨-, fname, content, -, -, hrows⟩ := cowcInit_ok_inv h
  obtain ⟨h1, h2⟩ := readRows_length hrows
  rw [h1, h2]

/-- pyGet at a nonnegative index is plain list lookup. -/
theorem pyGet_nat {α : Type} (xs : List α) (i : Nat) :
    pyGet xs (i : Int) =
      match xs[i]? with
      | some a => Except.ok a
      | none => Except.error PyErr.indexError := by
  unfold pyGet
  have h2 : (0 : Int) ≤ (i : Int) := Int.ofNat_nonneg i
  have h1 : ¬(((i : Int)) < 0) := not_lt.2 h2
  have h3 : ((i : Int)).toNat = i := rfl
  simp only [h1, if_false, h2, if_true, h3]

/-- pyGet at a negative in-range index equals pyGet at length + index. -/
theorem pyGet_neg {α : Type} (xs : List α) (i : Int)
    (h1 : -(xs.length : Int) ≤ i) (h2 : i < 0) :
    pyGet xs i = pyGet xs ((xs.length : Int) + i) := by
  unfold pyGet
  have hj : ¬((xs.length : Int) + i < 0) := by omega
  simp only [h2, if_true, hj, if_false]
  rw [Int.add_comm]

/-- pyGet at any nonnegative integer index is plain list lookup at its
toNat. -/
theorem pyGet_pos {α : Type} (xs : List α) (t : Int) (h0 : 0 ≤ t) :
    pyGet xs t =
      match xs[t.toNat]? with
      | some a => Except.ok a
      | none => Except.error PyErr.indexError := by
  unfold pyGet
  have hnneg : ¬(t < 0) := by omega
  simp only [hnneg, if_false, h0, if_true]

/-- pyInt never raises IndexError. -/
theorem pyInt_not_index (s : String) : pyInt s ≠ Except.error PyErr.indexError := by
  unfold pyInt
  split
  · simp
  · split
    · split <;> simp
    · split
      · split <;> simp
      · split <;> simp

/-- A minimal concrete dataset descriptor used to exercise the loader:
no remote files, a split-file name with no replacement field. -/
def cfgEx : COWCConfig :=
  { base_folder := "d"
    base_url := "http://x/"
    filenames := []
    md5s := []
    filename := "split_list.txt" }

/-- A concrete filesystem holding the split file of the spec's example
scenario and both images it names. -/
def fsEx : FS :=
  [ ("r/d/split_list.txt", "img001.jpg 1\nimg002.jpg 0")
  , ("r/d/img001.jpg", "A")
  , ("r/d/img002.jpg", "B") ]

/-- The dataset the example construction builds. -/
def dsEx : COWCDataset :=
  { images := ["img001.jpg", "img002.jpg"], targets := ["1", "0"] }

/-- C9: for every split argument other than "train" or "test" the
constructor raises AssertionError having performed no download, no
integrity check and no file access: the action trace is empty. -/
theorem cowc_c9_assert_split (cfg : COWCConfig) (root split : String) (dl : Bool)
    (md5fn remote : String → String) (tarExtract : String → FS)
    (bunzip : String → String) (fs : FS)
    (h1 : split ≠ "train") (h2 : split ≠ "test") :
    cowcInit cfg root split dl md5fn remote tarExtract bunzip fs
      = ([], Except.error PyErr.assertionError) := by
  unfold cowcInit
  rw [if_neg]
  rintro (h | h)
  · exact h1 h
  · exact h2 h

/-- Witness for C9 at the concrete split "validation". -/
theorem cowc_c9_assert_split_witness :
    cowcInit cfgEx "r" "validation" false id id (fun _ => []) id fsEx
      = ([], Except.error PyErr.assertionError) :=
  cowc_c9_assert_split cfgEx "r" "validation" false id id (fun _ => []) id fsEx
    (by decide) (by decide)

/-- C3: when every listed file is already present with a matching
checksum, download() returns after its integrity check: the trace holds no
download_url invocation and no network fetch, and the filesystem is
returned unchanged. -/
theorem cowc_c3_download_idempotent (cfg : COWCConfig) (root : String)
    (md5fn remote : String → String) (tarExtract : String → FS)
    (bunzip : String → String) (fs : FS)
    (h : cowcCheckIntegrity cfg root md5fn fs = true) :
    cowcDownload cfg root md5fn remote tarExtract bunzip fs
      = ([Action.integrityCheck], Except.ok fs) ∧
    ∀ a ∈ (cowcDownload cfg root md5fn remote tarExtract bunzip fs).1,
      (∀ u, a ≠ Action.downloadUrlCall u) ∧ (∀ u, a ≠ Action.fetch u) := by
  have he : cowcDownload cfg root md5fn remote tarExtract bunzip fs
      = ([Action.integrityCheck], Except.ok fs) := by
    unfold cowcDownload
    rw [if_pos h]
  refine ⟨he, ?_⟩
  rw [he]
  simp

/-- A one-file descriptor whose file is already valid under the identity
hash, for the C3 witness. -/
def cfgC3 : COWCConfig :=
  { base_folder := "d"
    base_url := "http://x/"
    filenames := ["a.tbz"]
    md5s := ["h"]
    filename := "s.txt" }

/-- Witness for C3: a filesystem already holding the valid file. -/
theorem cowc_c3_download_idempotent_witness :
    cowcDownload cfgC3 "r" id id (fun _ => []) id [("r/d/a.tbz", "h")]
      = ([Action.integrityCheck], Except.ok [("r/d/a.tbz", "h")]) ∧
    ∀ a ∈ (cowcDownload cfgC3 "r" id id (fun _ => []) id [("r/d/a.tbz", "h")]).1,
      (∀ u, a ≠ Action.downloadUrlCall u) ∧ (∀ u, a ≠ Action.fetch u) :=
  cowc_c3_download_idempotent cfgC3 "r" id id (fun _ => []) id
    [("r/d/a.tbz", "h")] (by decide)

/-- C2: per (filename, md5) pair, download_url skips the fetch when the
local file exists with a matching checksum and otherwise fetches the
remote content into the local directory and verifies it again, and the
acquisition loop routes every pair through download_url against the base
URL. -/
theorem cowc_c2_download_url_per_file (fs : FS) (md5fn remote : String → String)
    (url dir f m : String) :
    (check_integrity fs md5fn (pathJoin dir f) m = true →
      download_url fs md5fn remote url dir f m
        = ([Action.downloadUrlCall url], Except.ok fs)) ∧
    (check_integrity fs md5fn (pathJoin dir f) m = false →
      download_url fs md5fn remote url dir f m
        = ([Action.downloadUrlCall url, Action.fetch url],
           if check_integrity (fsWrite fs (pathJoin dir f) (remote url)) md5fn
                (pathJoin dir f) m
           then Except.ok (fsWrite fs (pathJoin dir f) (remote url))
           else Except.error (PyErr.runtimeError "File not found or corrupted."))) ∧
    (∀ (cfg : COWCConfig) (root : String) (tarExtract : String → FS)
       (bunzip : String → String) (rest : List (String × String)) (fs0 : FS),
      ∃ tl r,
        downloadLoop cfg root md5fn remote tarExtract bunzip ((f, m) :: rest) fs0
          = ((download_url fs0 md5fn remote (cfg.base_url ++ f)
                (pathJoin root cfg.base_folder) f m).1 ++ tl, r)) := by
  refine ⟨?_, ?_, ?_⟩
  · intro h
    unfold download_url
    rw [if_pos h]
  · intro h
    unfold download_url
    rw [if_neg (by simp [h])]
    by_cases hc : check_integrity (fsWrite fs (pathJoin dir f) (remote url)) md5fn
        (pathJoin dir f) m = true
    · simp only [hc, if_true]
    · simp only [Bool.not_eq_true] at hc
      simp only [hc, Bool.false_eq_true, if_false]
  · intro cfg root tarExtract bunzip rest fs0
    rcases hdu : download_url fs0 md5fn remote (cfg.base_url ++ f)
        (pathJoin root cfg.base_folder) f m with ⟨a1, r1⟩
    rcases r1 with e | fs1
    · refine ⟨[], Except.error e, ?_⟩
      simp [downloadLoop, hdu]
    · rcases hed : extractDispatch tarExtract bunzip (pathJoin root cfg.base_folder)
          f fs1 with ⟨a2, r2⟩
      rcases r2 with e | fs2
      · refine ⟨a2, Except.error e, ?_⟩
        simp [downloadLoop, hdu, hed]
      · rcases hrec : downloadLoop cfg root md5fn remote tarExtract bunzip rest fs2
          with ⟨a3, r3⟩
        refine ⟨a2 ++ a3, r3, ?_⟩
        simp [downloadLoop, hdu, hed, hrec, List.append_assoc]

/-- Witness for C2: the skip case on a valid local file and the
fetch-and-verify case on a missing one. -/
theorem cowc_c2_download_url_per_file_witness :
    download_url [("r/d/a.tbz", "h")] id id "http://x/a.tbz" "r/d" "a.tbz" "h"
      = ([Action.downloadUrlCall "http://x/a.tbz"],
         Except.ok [("r/d/a.tbz", "h")]) ∧
    download_url [] id (fun _ => "h") "http://x/a.tbz" "r/d" "a.tbz" "h"
      = ([Action.downloadUrlCall "http://x/a.tbz", Action.fetch "http://x/a.tbz"],
         if check_integrity (fsWrite [] (pathJoin "r/d" "a.tbz")
              ((fun _ => "h") "http://x/a.tbz")) id (pathJoin "r/d" "a.tbz") "h"
         then Except.ok (fsWrite [] (pathJoin "r/d" "a.tbz")
              ((fun _ => "h") "http://x/a.tbz"))
         else Except.error (PyErr.runtimeError "File not found or corrupted.")) :=
  ⟨(cowc_c2_download_url_per_file [("r/d/a.tbz", "h")] id id
      "http://x/a.tbz" "r/d" "a.tbz" "h").1 (by decide),
   (cowc_c2_download_url_per_file [] id (fun _ => "h")
      "http://x/a.tbz" "r/d" "a.tbz" "h").2.1 (by decide)⟩

/-- C4: after each acquisition the loop dispatches on the filename
suffix: a `.tbz` file is extracted in full into the dataset directory, a
`.bz2` file is decompressed in place to its path with the last four
characters (the suffix) stripped, and any other suffix causes no action;
the loop runs this dispatch on every pair right after its download_url
call. -/
theorem cowc_c4_extract_dispatch (tarExtract : String → FS)
    (bunzip : String → String) (dir f : String) (fs : FS) :
    (strEndsWith f ".tbz" = true → ∀ c, fsGet fs (pathJoin dir f) = some c →
      extractDispatch tarExtract bunzip dir f fs
        = ([Action.extractTar f], Except.ok (fsWriteAll fs (tarExtract c)))) ∧
    (strEndsWith f ".tbz" = false → strEndsWith f ".bz2" = true →
      ∀ c, fsGet fs (pathJoin dir f) = some c →
      extractDispatch tarExtract bunzip dir f fs
        = ([Action.decompress f (String.dropRight (pathJoin dir f) 4)],
           Except.ok (fsWrite fs (String.dropRight (pathJoin dir f) 4)
             (bunzip c)))) ∧
    (strEndsWith f ".tbz" = false → strEndsWith f ".bz2" = false →
      extractDispatch tarExtract bunzip dir f fs = ([], Except.ok fs)) ∧
    (∀ (cfg : COWCConfig) (root : String) (md5fn remote : String → String)
       (m : String) (rest : List (String × String)) (fs0 fs1 : FS)
       (a1 : List Action),
      download_url fs0 md5fn remote (cfg.base_url ++ f)
          (pathJoin root cfg.base_folder) f m = (a1, Except.ok fs1) →
      ∃ tl r,
        downloadLoop cfg root md5fn remote tarExtract bunzip ((f, m) :: rest) fs0
          = (a1 ++ (extractDispatch tarExtract bunzip
                (pathJoin root cfg.base_folder) f fs1).1 ++ tl, r)) := by
  refine ⟨?_, ?_, ?_, ?_⟩
  · intro h c hget
    unfold extractDispatch
    rw [if_pos h, hget]
  · intro h1 h2 c hget
    unfold extractDispatch
    rw [if_neg (by simp [h1]), if_pos h2, hget]
  · intro h1 h2
    unfold extractDispatch
    rw [if_neg (by simp [h1]), if_neg (by simp [h2])]
  · intro cfg root md5fn remote m rest fs0 fs1 a1 hdu
    rcases hed : extractDispatch tarExtract bunzip (pathJoin root cfg.base_folder)
        f fs1 with ⟨a2, r2⟩
    rcases r2 with e | fs2
    · refine ⟨[], Except.error e, ?_⟩
      simp [downloadLoop, hdu, hed]
    · rcases hrec : downloadLoop cfg root md5fn remote tarExtract bunzip rest fs2
        with ⟨a3, r3⟩
      refine ⟨a3, r3, ?_⟩
      simp [downloadLoop, hdu, hed, hrec]

/-- Witness for C4: the three dispatch cases at the suffixes `.tbz`,
`.bz2` and `.zip`. -/
theorem cowc_c4_extract_dispatch_witness :
    extractDispatch (fun c => [("r/d/ex_" ++ c, "E")]) id "r/d" "a.tbz"
        [("r/d/a.tbz", "T")]
      = ([Action.extractTar "a.tbz"],
         Except.ok (fsWriteAll [("r/d/a.tbz", "T")]
           ((fun c => [("r/d/ex_" ++ c, "E")]) "T"))) ∧
    extractDispatch (fun c => [("r/d/ex_" ++ c, "E")]) id "r/d" "b.txt.bz2"
        [("r/d/b.txt.bz2", "Z")]
      = ([Action.decompress "b.txt.bz2"
            (String.dropRight (pathJoin "r/d" "b.txt.bz2") 4)],
         Except.ok (fsWrite [("r/d/b.txt.bz2", "Z")]
           (String.dropRight (pathJoin "r/d" "b.txt.bz2") 4) (id "Z"))) ∧
    extractDispatch (fun c => [("r/d/ex_" ++ c, "E")]) id "r/d" "c.zip"
        [("r/d/c.zip", "X")]
      = ([], Except.ok [("r/d/c.zip", "X")]) :=
  ⟨(cowc_c4_extract_dispatch (fun c => [("r/d/ex_" ++ c, "E")]) id "r/d" "a.tbz"
      [("r/d/a.tbz", "T")]).1 (by decide) "T" (by decide),
   (cowc_c4_extract_dispatch (fun c => [("r/d/ex_" ++ c, "E")]) id "r/d"
      "b.txt.bz2" [("r/d/b.txt.bz2", "Z")]).2.1 (by decide) (by decide) "Z"
      (by decide),
   (cowc_c4_extract_dispatch (fun c => [("r/d/ex_" ++ c, "E")]) id "r/d" "c.zip"
      [("r/d/c.zip", "X")]).2.2.1 (by decide) (by decide)⟩

/-- The COWCDetection filesystem in which every listed file is present
and verifies under the identity hash: each file content equals its
expected checksum. -/
def fsDet : FS :=
  (cowcDetectionCfg.filenames.zip cowcDetectionCfg.md5s).map
    (fun p => (pathJoin (pathJoin "data" cowcDetectionCfg.base_folder) p.1, p.2))

/-- C7, the failing input: with every COWCDetection file present and
checksum-valid (so the integrity check passes and the documented success
conditions hold), the constructor still raises, with KeyError "split":
`self.filename.format(split)` passes `split` positionally while the
template "COWC_\x7bsplit\x7d_list_detection.txt" names its field, so
str.format looks up a keyword argument that was never given.  The
documented behaviour (raise only AssertionError or RuntimeError, succeed
on valid data) is contradicted. -/
theorem cowc_c7_keyerror_on_valid_data :
    cowcCheckIntegrity cowcDetectionCfg "data" id fsDet = true ∧
    cowcInit cowcDetectionCfg "data" "train" false id id (fun _ => []) id fsDet
      = ([Action.integrityCheck], Except.error (PyErr.keyError "split")) :=
  ⟨rfl, rfl⟩

/-- Appending distinct tails to the same directory gives distinct paths. -/
theorem pathJoin_right_inj {p a b : String} (h : pathJoin p a = pathJoin p b) :
    a = b := by
  unfold pathJoin at h
  have h2 := congrArg String.data h
  simp only [String.data_append] at h2
  have h3 := List.append_cancel_left h2
  exact String.ext h3

/-- C8: running create_file twice with the fixed LABELS and STAC
constants produces byte-identical labels.geojson and stac.json documents:
both runs write exactly the serialization of the constants, so the second
run's files read back equal to the first run's. -/
theorem cowc_c8_fixture_deterministic (path : String) (fs : FS) :
    fsGet (create_file path (create_file path fs)) (pathJoin path "labels.geojson")
      = fsGet (create_file path fs) (pathJoin path "labels.geojson") ∧
    fsGet (create_file path (create_file path fs)) (pathJoin path "stac.json")
      = fsGet (create_file path fs) (pathJoin path "stac.json") ∧
    fsGet (create_file path fs) (pathJoin path "labels.geojson")
      = some (pyJsonDump LABELS) ∧
    fsGet (create_file path fs) (pathJoin path "stac.json")
      = some (pyJsonDump STAC) := by
  have hne : pathJoin path "stac.json" ≠ pathJoin path "labels.geojson" :=
    fun h => absurd (pathJoin_right_inj h) (by decide)
  refine ⟨?_, ?_, ?_, ?_⟩ <;>
    simp [create_file, fsWrite, fsGet, hne]

/-- C1: on a constructed dataset with no transforms, __getitem__ at any
in-range index returns the pair of the decoded image named by column one
of row i of the split file together with the integer parsed from column
two of that row; and on the spec's example split file the length is 2,
item 0 carries label 1 and item 1 carries label 0. -/
theorem cowc_c1_label_from_split :
    (∀ (cfg : COWCConfig) (root split : String) (dl : Bool)
       (md5fn remote : String → String) (tarExtract : String → FS)
       (bunzip decode : String → String) (fs : FS) (acts : List Action)
       (fs2 : FS) (ds : COWCDataset) (fname content : String) (i : Nat)
       (row : List String) (imgrel tstr imgc : String) (v : Int),
      cowcInit cfg root split dl md5fn remote tarExtract bunzip fs
        = (acts, Except.ok (fs2, ds)) →
      pyFormat cfg.filename split = Except.ok fname →
      fsGet fs2 (pathJoin (pathJoin root cfg.base_folder) fname) = some content →
      (csvRows content)[i]? = some row →
      row[0]? = some imgrel →
      row[1]? = some tstr →
      fsGet fs2 (pathJoin (pathJoin root cfg.base_folder) imgrel) = some imgc →
      pyInt tstr = Except.ok v →
      i < cowcLen ds ∧
      cowcGetitem fs2 decode cfg root ds (i : Int)
        = Except.ok (decode imgc, v)) ∧
    (cowcInit cfgEx "r" "train" false id id (fun _ => []) id fsEx
       = ([Action.integrityCheck, Action.openFile "r/d/split_list.txt"],
          Except.ok (fsEx, dsEx)) ∧
     cowcLen dsEx = 2 ∧
     cowcGetitem fsEx id cfgEx "r" dsEx 0 = Except.ok ("A", 1) ∧
     cowcGetitem fsEx id cfgEx "r" dsEx 1 = Except.ok ("B", 0)) := by
  constructor
  · intro cfg root split dl md5fn remote tarExtract bunzip decode fs acts fs2 ds
      fname content i row imgrel tstr imgc v hinit hfmt hcontent hrow h0 h1 himgc hv
    obtain ⟨hint, fname2, content2, hfmt2, hget2, hrows⟩ := cowcInit_ok_inv hinit
    rw [hfmt] at hfmt2
    injection hfmt2 with hfname
    subst hfname
    rw [hcontent] at hget2
    injection hget2 with hcont
    subst hcont
    have hts : ds.targets[i]? = some tstr := by
      rw [(readRows_get hrows i).2, hrow]
      simpa using h1
    have his : ds.images[i]? = some imgrel := by
      rw [(readRows_get hrows i).1, hrow]
      simpa using h0
    refine ⟨(List.getElem?_eq_some.1 hts).1, ?_⟩
    simp [cowcGetitem, cowcLoadImage, pyGet_nat, his, hts, himgc, hv, ok_bind]
  · exact ⟨rfl, rfl, rfl, rfl⟩

/-- Witness for C1 at row 0 of the example split file. -/
theorem cowc_c1_label_from_split_witness :
    0 < cowcLen dsEx ∧
    cowcGetitem fsEx id cfgEx "r" dsEx ((0 : Nat) : Int) = Except.ok (id "A", 1) :=
  cowc_c1_label_from_split.1 cfgEx "r" "train" false id id (fun _ => []) id id
    fsEx [Action.integrityCheck, Action.openFile "r/d/split_list.txt"] fsEx dsEx
    "split_list.txt" "img001.jpg 1\nimg002.jpg 0" 0 ["img001.jpg", "1"]
    "img001.jpg" "1" "A" 1 rfl rfl rfl rfl rfl rfl rfl rfl

/-- C5: with the data verified, an absent split file fails construction
with FileNotFoundError, and a split file holding a row with fewer than
two fields fails construction with the reader loop's IndexError; both
propagate out of __init__. -/
theorem cowc_c5_split_file_errors (cfg : COWCConfig) (root split : String)
    (md5fn remote : String → String) (tarExtract : String → FS)
    (bunzip : String → String) (fs : FS) (fname : String)
    (hsplit : split = "train" ∨ split = "test")
    (hint : cowcCheckIntegrity cfg root md5fn fs = true)
    (hfmt : pyFormat cfg.filename split = Except.ok fname) :
    (fsGet fs (pathJoin (pathJoin root cfg.base_folder) fname) = none →
      cowcInit cfg root split false md5fn remote tarExtract bunzip fs
        = ([Action.integrityCheck], Except.error PyErr.fileNotFoundError)) ∧
    (∀ content,
      fsGet fs (pathJoin (pathJoin root cfg.base_folder) fname) = some content →
      (∃ r ∈ csvRows content, r.length < 2) →
      cowcInit cfg root split false md5fn remote tarExtract bunzip fs
        = ([Action.integrityCheck,
            Action.openFile (pathJoin (pathJoin root cfg.base_folder) fname)],
           Except.error PyErr.indexError)) := by
  have hred : cowcInit cfg root split false md5fn remote tarExtract bunzip fs
      = cowcInitAfter cfg root split md5fn [] fs := by
    unfold cowcInit
    rw [if_pos hsplit]
    simp
  constructor
  · intro hnone
    rw [hred]
    simp [cowcInitAfter, hint, hfmt, hnone]
  · intro content hsome hbad
    rw [hred]
    simp [cowcInitAfter, hint, hfmt, hsome, readRows_short hbad]

/-- Witness for C5: an absent split file and a one-field split file. -/
theorem cowc_c5_split_file_errors_witness :
    cowcInit cfgEx "r" "train" false id id (fun _ => []) id []
      = ([Action.integrityCheck], Except.error PyErr.fileNotFoundError) ∧
    cowcInit cfgEx "r" "train" false id id (fun _ => []) id
        [("r/d/split_list.txt", "img001.jpg")]
      = ([Action.integrityCheck, Action.openFile (pathJoin (pathJoin "r" "d")
            "split_list.txt")],
         Except.error PyErr.indexError) :=
  ⟨(cowc_c5_split_file_errors cfgEx "r" "train" id id (fun _ => []) id []
      "split_list.txt" (Or.inl rfl) rfl rfl).1 rfl,
   (cowc_c5_split_file_errors cfgEx "r" "train" id id (fun _ => []) id
      [("r/d/split_list.txt", "img001.jpg")] "split_list.txt"
      (Or.inl rfl) rfl rfl).2 "img001.jpg" rfl
      ⟨["img001.jpg"], by decide, by decide⟩⟩

/-- C6: on any constructed dataset, __getitem__ at index len(dataset)
raises IndexError. -/
theorem cowc_c6_out_of_range (cfg : COWCConfig) (root split : String) (dl : Bool)
    (md5fn remote : String → String) (tarExtract : String → FS)
    (bunzip decode : String → String) (fs : FS) (acts : List Action)
    (fs2 : FS) (ds : COWCDataset)
    (h : cowcInit cfg root split dl md5fn remote tarExtract bunzip fs
         = (acts, Except.ok (fs2, ds))) :
    cowcGetitem fs2 decode cfg root ds ((cowcLen ds : Nat) : Int)
      = Except.error PyErr.indexError := by
  have hlen := cowcInit_ok_lengths h
  have himg : ds.images[cowcLen ds]? = none := by
    rw [List.getElem?_eq_none_iff]
    unfold cowcLen
    omega
  simp [cowcGetitem, cowcLoadImage, pyGet_nat, himg, error_bind]

/-- Witness for C6 at the example dataset of length 2. -/
theorem cowc_c6_out_of_range_witness :
    cowcGetitem fsEx id cfgEx "r" dsEx ((cowcLen dsEx : Nat) : Int)
      = Except.error PyErr.indexError :=
  cowc_c6_out_of_range cfgEx "r" "train" false id id (fun _ => []) id id fsEx
    [Action.integrityCheck, Action.openFile "r/d/split_list.txt"] fsEx dsEx rfl

/-- C10: on any constructed dataset of length n, __getitem__ at a
negative index i with -n ≤ i < 0 does not raise IndexError and agrees
with __getitem__ at n + i. -/
theorem cowc_c10_negative_index (cfg : COWCConfig) (root split : String)
    (dl : Bool) (md5fn remote : String → String) (tarExtract : String → FS)
    (bunzip decode : String → String) (fs : FS) (acts : List Action)
    (fs2 : FS) (ds : COWCDataset) (i : Int)
    (h : cowcInit cfg root split dl md5fn remote tarExtract bunzip fs
         = (acts, Except.ok (fs2, ds)))
    (h1 : -((cowcLen ds : Nat) : Int) ≤ i) (h2 : i < 0) :
    cowcGetitem fs2 decode cfg root ds i
      = cowcGetitem fs2 decode cfg root ds (((cowcLen ds : Nat) : Int) + i) ∧
    cowcGetitem fs2 decode cfg root ds i ≠ Except.error PyErr.indexError := by
  have hlen := cowcInit_ok_lengths h
  unfold cowcLen at h1 ⊢
  have h1i : -((ds.images.length : Int)) ≤ i := by
    rw [hlen]
    exact h1
  have e1 : pyGet ds.images i
      = pyGet ds.images ((ds.targets.length : Int) + i) := by
    rw [pyGet_neg ds.images i h1i h2, hlen]
  have e2 : pyGet ds.targets i
      = pyGet ds.targets ((ds.targets.length : Int) + i) :=
    pyGet_neg ds.targets i h1 h2
  have heq : cowcGetitem fs2 decode cfg root ds i
      = cowcGetitem fs2 decode cfg root ds ((ds.targets.length : Int) + i) := by
    simp only [cowcGetitem, cowcLoadImage]
    rw [e1, e2]
  refine ⟨heq, ?_⟩
  rw [heq]
  have hge0 : (0 : Int) ≤ (ds.targets.length : Int) + i := by omega
  have hki : ((ds.targets.length : Int) + i).toNat < ds.images.length := by
    rw [hlen]
    omega
  have hkt : ((ds.targets.length : Int) + i).toNat < ds.targets.length := by
    omega
  obtain ⟨imgrel, hx⟩ : ∃ a,
      ds.images[((ds.targets.length : Int) + i).toNat]? = some a :=
    ⟨_, List.getElem?_eq_getElem hki⟩
  obtain ⟨tstr, hy⟩ : ∃ a,
      ds.targets[((ds.targets.length : Int) + i).toNat]? = some a :=
    ⟨_, List.getElem?_eq_getElem hkt⟩
  have e3 : pyGet ds.images ((ds.targets.length : Int) + i)
      = Except.ok imgrel := by
    rw [pyGet_pos _ _ hge0, hx]
  have e4 : pyGet ds.targets ((ds.targets.length : Int) + i)
      = Except.ok tstr := by
    rw [pyGet_pos _ _ hge0, hy]
  simp only [cowcGetitem, cowcLoadImage, e3, e4, ok_bind]
  rcases hz : fsGet fs2 (pathJoin (pathJoin root cfg.base_folder) imgrel)
      with _ | c
  · simp [hz, error_bind]
  · rcases hp : pyInt tstr with e | v
    · have hne : e ≠ PyErr.indexError := fun hc => pyInt_not_index tstr (hc ▸ hp)
      simp [hz, hp, ok_bind, error_bind, hne]
    · simp [hz, hp, ok_bind]

/-- Witness for C10 at index -1 of the example dataset. -/
theorem cowc_c10_negative_index_witness :
    (cowcGetitem fsEx id cfgEx "r" dsEx (-1)
       = cowcGetitem fsEx id cfgEx "r" dsEx (((cowcLen dsEx : Nat) : Int) + -1)) ∧
    cowcGetitem fsEx id cfgEx "r" dsEx (-1) ≠ Except.error PyErr.indexError :=
  cowc_c10_negative_index cfgEx "r" "train" false id id (fun _ => []) id id fsEx
    [Action.integrityCheck, Action.openFile "r/d/split_list.txt"] fsEx dsEx (-1)
    rfl (by decide) (by decide)

end TG
